import Mathlib

/-!
Shallow embedding of the GoldWatch dashboard (React/TypeScript):
`src/App.tsx`, `src/services/geminiService.ts`, and the unnamed sources
holding `types.ts`, `goldService.ts` and `telegramService.ts`.

The React component is modelled as a state machine: `AppState` carries the
`useState` hooks, the `lastAlertTimeRef` ref, the browser `localStorage`,
and the set of active interval timers; `Event` enumerates the user actions
and effect runs that mutate state, and `step` gives the transition,
together with an `Output` recording the external calls the transition
performs (price fetch, Telegram send, Gemini call).

Environmental values whose exact content the code never inspects are
modelled injectively: `Date.toLocaleTimeString` / `toLocaleString`
rendering of a timestamp is `toString` of the millisecond value, and
`toLocaleString` rendering of a price inside the log message is `toString`
of the price.  Timestamps and prices are integers (`pricePerGram` is
produced by `Math.round` in `fetchLiveGoldPrice`); the floating-point
division by the troy-ounce constant happens inside `fetchLiveGoldPrice`
and is abstracted as the fetched `GoldData` value.
-/

namespace GoldWatch

/-- `PricePoint` from `types.ts`: one sample of the chart. -/
structure PricePoint where
  time : String
  price : ℤ
deriving DecidableEq

/-- `TelegramConfig` from `types.ts`. -/
structure TelegramConfig where
  botToken : String
  chatId : String
  enabled : Bool
deriving DecidableEq

/-- The sentiment union type of `MarketInsight` in `types.ts`. -/
inductive Sentiment where
  | Bullish
  | Bearish
  | Neutral
deriving DecidableEq

/-- `MarketInsight` from `types.ts`. -/
structure MarketInsight where
  sentiment : Sentiment
  analysis : String
  recommendation : String
deriving DecidableEq

/-- The status union type of `NotificationLog` in `types.ts`. -/
inductive LogStatus where
  | success
  | failed
deriving DecidableEq

/-- `NotificationLog` from `types.ts`. -/
structure NotificationLog where
  id : String
  timestamp : String
  message : String
  status : LogStatus
deriving DecidableEq

/-- `GoldData` from `goldService.ts`. -/
structure GoldData where
  pricePerGram : ℤ
  timestamp : ℤ
  source : String
deriving DecidableEq

/-- JSON values, as produced by `JSON.stringify` / consumed by
`JSON.parse`.  Only the constructors the app's config serialization uses
are needed. -/
inductive JVal where
  | str (s : String)
  | bool (b : Bool)
  | num (n : ℤ)
  | null
  | obj (fields : List (String × JVal))

/-- `JSON.stringify(tgConfig)`: the config object with its three fields. -/
def tgConfigToJson (c : TelegramConfig) : JVal :=
  .obj [("botToken", .str c.botToken), ("chatId", .str c.chatId),
        ("enabled", .bool c.enabled)]

/-- Read a field of a JSON object, as JS property access on a parsed value. -/
def jLookup (v : JVal) (k : String) : Option JVal :=
  match v with
  | .obj fields => fields.lookup k
  | _ => none

/-- Typed reading of a parsed JSON value back into `TelegramConfig`.
`JSON.parse(saved)` in `App.tsx` is untyped; a value of any other shape
would give an ill-typed JS object, which is outside the model (`none`). -/
def tgConfigFromJson (v : JVal) : Option TelegramConfig :=
  match jLookup v "botToken", jLookup v "chatId", jLookup v "enabled" with
  | some (.str b), some (.str c), some (.bool e) => some ⟨b, c, e⟩
  | _, _, _ => none

/-- The default config used when nothing is stored:
`{ botToken: '', chatId: '', enabled: false }`. -/
def initialTgConfig : TelegramConfig := ⟨"", "", false⟩

/-- The `useState` initializer of `tgConfig`:
`saved ? JSON.parse(saved) : { botToken: '', chatId: '', enabled: false }`. -/
def loadTgConfig (saved : Option JVal) : Option TelegramConfig :=
  match saved with
  | none => some initialTgConfig
  | some v => tgConfigFromJson v

/-- The `localStorage` key used for the config. -/
def tgConfigKey : String := "gold_tg_config"

/-- `localStorage.setItem`: the store maps keys to (already parsed) JSON
values. -/
def setItem (store : List (String × JVal)) (k : String) (v : JVal) :
    List (String × JVal) :=
  (k, v) :: store.filter (fun p => p.1 ≠ k)

/-- `new Date(t).toLocaleTimeString(...)` — environment-dependent
formatting, modelled injectively by the millisecond timestamp. -/
def timeLabel (t : ℤ) : String := toString t

/-- The chart point built in `fetchPrice` from the fetched data. -/
def newPoint (d : GoldData) : PricePoint := ⟨timeLabel d.timestamp, d.pricePerGram⟩

/-- `updated.slice(-30)`: keep the most recent 30 points. -/
def keepLast30 (l : List PricePoint) : List PricePoint :=
  l.drop (l.length - 30)

/-- `fetchLiveGoldPrice` from `goldService.ts`: when the HTTP response is
not ok the function throws (`throw new Error('Failed to fetch from primary
source')`, rethrown by the catch); otherwise it returns the gold data
computed from the response body.  The float conversion from the XAU/IDR
rate to `pricePerGram` happens before `Math.round`, so the result is an
integer and is abstracted as the `data` argument. -/
def fetchLiveGoldPrice (responseOk : Bool) (data : GoldData) :
    Except Unit GoldData :=
  if responseOk then .ok data else .error ()

/-- `sendTelegramAlert` from `telegramService.ts`.  The early return fires
when the token or chat id is empty (JS falsiness of `''`) or notifications
are disabled; otherwise the result is `response.ok` of the POST, with a
network throw caught and turned into `false` — both are the `netOk`
argument. -/
def sendTelegramAlert (config : TelegramConfig) (netOk : Bool) : Bool :=
  if config.botToken = "" ∨ config.chatId = "" ∨ config.enabled = false then
    false
  else
    netOk

/-- The fallback insight returned by `getMarketInsight` when the model
call or the JSON parse throws. -/
def fallbackInsight : MarketInsight :=
  ⟨.Neutral, "Could not fetch AI analysis at this time.",
   "Monitor global economic indicators."⟩

/-- `response.text?.trim() || '{}'`: a missing text or a text trimming to
the empty string (falsy) is replaced by `'{}'`. -/
def respJsonStr (text : Option String) : String :=
  match text with
  | none => "{}"
  | some t => if t.trim = "" then "{}" else t.trim

/-- `getMarketInsight` from `geminiService.ts`.  The model call is
environmental: `modelCall` is `.error` when `generateContent` throws and
otherwise carries the optional `response.text`; `parseJson` is the ambient
`JSON.parse` read as a `MarketInsight`, `.error` when it throws.  Both
throws are caught by the surrounding `try`/`catch`, which returns the
fixed fallback insight. -/
def getMarketInsight (currentPrice : ℤ)
    (modelCall : Except Unit (Option String))
    (parseJson : String → Except Unit MarketInsight) : MarketInsight :=
  match modelCall with
  | .error _ => fallbackInsight
  | .ok text =>
    match parseJson (respJsonStr text) with
    | .error _ => fallbackInsight
    | .ok m => m

/-- The log message
`Price threshold IDR ${threshold.toLocaleString()} triggered at IDR ${currentPrice.toLocaleString()}`,
with locale formatting modelled by `toString`. -/
def alertMessage (threshold currentPrice : ℤ) : String :=
  "Price threshold IDR " ++ toString threshold ++ " triggered at IDR " ++
    toString currentPrice

/-- The log entry pushed by `checkThreshold`: id is
`Date.now().toString()`, timestamp is `new Date().toLocaleString()` (both
rendered from `now`), and status is `'success'` or `'failed'` according to
the send result. -/
def mkAlertLog (now threshold currentPrice : ℤ) (success : Bool) :
    NotificationLog :=
  ⟨toString now, toString now, alertMessage threshold currentPrice,
   if success then .success else .failed⟩

/-- The component state: the `useState` hooks of `App`, the
`lastAlertTimeRef` ref, plus the ambient browser state the component owns
(`localStorage` and the interval timers of the monitoring effect).
`timers` lists the live interval timers as (id, period-ms) pairs and
`effectTimer` is the id held by the current monitoring-effect instance;
`nextTimerId` is a fresh-id counter. -/
structure AppState where
  currentPrice : ℤ
  lastUpdated : Option ℤ
  dataSource : String
  threshold : ℤ
  priceHistory : List PricePoint
  isMonitoring : Bool
  insight : Option MarketInsight
  loadingInsight : Bool
  loadingPrice : Bool
  logs : List NotificationLog
  tgConfig : TelegramConfig
  lastAlertTime : ℤ
  localStore : List (String × JVal)
  timers : List (ℕ × ℕ)
  effectTimer : Option ℕ
  nextTimerId : ℕ

/-- The initial render: `useState` initial values, with `tgConfig` read
from `localStorage` (the initializer falls back to `initialTgConfig` when
nothing is stored). -/
def initState (store : List (String × JVal)) : AppState :=
  { currentPrice := 0
    lastUpdated := none
    dataSource := "Initializing..."
    threshold := 2900000
    priceHistory := []
    isMonitoring := false
    insight := none
    loadingInsight := false
    loadingPrice := false
    logs := []
    tgConfig := (loadTgConfig (store.lookup tgConfigKey)).getD initialTgConfig
    lastAlertTime := 0
    localStore := store
    timers := []
    effectTimer := none
    nextTimerId := 0 }

/-- `setLoadingPrice(true)` at the top of `fetchPrice`. -/
def fetchPriceStart (s : AppState) : AppState :=
  { s with loadingPrice := true }

/-- The `try` block of `fetchPrice`: on success the price, timestamp and
source states are set and the new point is appended to the history which
is then cut to its last 30 points; the `catch` block only logs, leaving
state untouched. -/
def fetchPriceTry (outcome : Except Unit GoldData) (s : AppState) : AppState :=
  match outcome with
  | .error _ => s
  | .ok d =>
    { s with
      currentPrice := d.pricePerGram
      lastUpdated := some d.timestamp
      dataSource := d.source
      priceHistory := keepLast30 (s.priceHistory ++ [newPoint d]) }

/-- `setLoadingPrice(false)` in the `finally` block. -/
def fetchPriceFinally (s : AppState) : AppState :=
  { s with loadingPrice := false }

/-- The whole of `fetchPrice`, given the outcome of `fetchLiveGoldPrice`. -/
def fetchPrice (outcome : Except Unit GoldData) (s : AppState) : AppState :=
  fetchPriceFinally (fetchPriceTry outcome (fetchPriceStart s))

/-- The external calls a transition performs. -/
structure Output where
  fetchCalled : Bool
  alertAttempted : Bool
  alertSuccess : Bool
  geminiCalled : Bool
deriving DecidableEq

/-- A transition performing no external call. -/
def quietOutput : Output := ⟨false, false, false, false⟩

/-- A transition whose only external call is a price fetch. -/
def fetchOutput : Output := ⟨true, false, false, false⟩

/-- The `checkThreshold` effect of `App.tsx`, at wall-clock time `now`
(`Date.now()`), with `netOk` the network outcome of the Telegram POST.
An alert is sent only while monitoring with a positive price at or above
the threshold, debounced to once per 10 minutes; the log list is capped at
50 entries and only a successful send advances `lastAlertTimeRef`. -/
def checkThreshold (now : ℤ) (netOk : Bool) (s : AppState) :
    AppState × Output :=
  if s.isMonitoring = true ∧ 0 < s.currentPrice ∧ s.threshold ≤ s.currentPrice then
    if 600000 < now - s.lastAlertTime then
      let success := sendTelegramAlert s.tgConfig netOk
      ({ s with
          logs := (mkAlertLog now s.threshold s.currentPrice success :: s.logs).take 50
          lastAlertTime := if success then now else s.lastAlertTime },
       ⟨false, true, success, false⟩)
    else
      (s, quietOutput)
  else
    (s, quietOutput)

/-- The timers left after `clearInterval` on the effect's own interval. -/
def clearEffectTimer (timers : List (ℕ × ℕ)) (handle : Option ℕ) :
    List (ℕ × ℕ) :=
  match handle with
  | none => timers
  | some id => timers.filter (fun t => t.1 ≠ id)

/-- Events driving the component: the Start/Stop button (whose
`setIsMonitoring` re-runs the monitoring effect: cleanup, then on `true`
an immediate fetch and a fresh 60000 ms interval), the interval firing,
the `checkThreshold` effect run, the threshold input, the settings inputs
(whose persistence effect writes the config to `localStorage`), and the
AI-insight button.  `clickInsight` carries the `MarketInsight` value that
`getMarketInsight` resolves with (it never rejects). -/
inductive Event where
  | toggleMonitoring (outcome : Except Unit GoldData)
  | timerFire (outcome : Except Unit GoldData)
  | alertCheck (now : ℤ) (netOk : Bool)
  | setThresholdEv (v : ℤ)
  | setConfigEv (c : TelegramConfig)
  | clickInsight (r : MarketInsight)

/-- One transition of the component. -/
def step (e : Event) (s : AppState) : AppState × Output :=
  match e with
  | .toggleMonitoring outcome =>
    let m := !s.isMonitoring
    let s1 := { s with
      isMonitoring := m
      timers := clearEffectTimer s.timers s.effectTimer
      effectTimer := none }
    if m then
      let s2 := fetchPrice outcome s1
      ({ s2 with
          timers := s2.timers ++ [(s2.nextTimerId, 60000)]
          effectTimer := some s2.nextTimerId
          nextTimerId := s2.nextTimerId + 1 },
       fetchOutput)
    else
      (s1, quietOutput)
  | .timerFire outcome =>
    match s.effectTimer with
    | some _ => (fetchPrice outcome s, fetchOutput)
    | none => (s, quietOutput)
  | .alertCheck now netOk => checkThreshold now netOk s
  | .setThresholdEv v => ({ s with threshold := v }, quietOutput)
  | .setConfigEv c =>
    ({ s with
        tgConfig := c
        localStore := setItem s.localStore tgConfigKey (tgConfigToJson c) },
     quietOutput)
  | .clickInsight r =>
    if s.currentPrice = 0 then
      (s, quietOutput)
    else
      ({ s with insight := some r, loadingInsight := false },
       ⟨false, false, false, true⟩)

/-- States reachable from some initial render by a sequence of events. -/
inductive Reachable : AppState → Prop where
  | init (store : List (String × JVal)) : Reachable (initState store)
  | next (e : Event) (s : AppState) : Reachable s → Reachable (step e s).1

/-- Running a list of events in order. -/
def run (s : AppState) : List Event → AppState
  | [] => s
  | e :: es => run (step e s).1 es

/-! ## Helper lemmas -/

theorem keepLast30_length_le (l : List PricePoint) :
    (keepLast30 l).length ≤ 30 := by
  simp only [keepLast30, List.length_drop]
  omega

theorem fetchPrice_priceHistory_ok (d : GoldData) (s : AppState) :
    (fetchPrice (.ok d) s).priceHistory =
      keepLast30 (s.priceHistory ++ [newPoint d]) := rfl

theorem fetchPrice_priceHistory_err (u : Unit) (s : AppState) :
    (fetchPrice (.error u) s).priceHistory = s.priceHistory := rfl

theorem fetchPrice_history_le (o : Except Unit GoldData) (s : AppState)
    (h : s.priceHistory.length ≤ 30) :
    (fetchPrice o s).priceHistory.length ≤ 30 := by
  cases o with
  | error u => rw [fetchPrice_priceHistory_err]; exact h
  | ok d => rw [fetchPrice_priceHistory_ok]; exact keepLast30_length_le _

theorem step_history_le (e : Event) (s : AppState)
    (h : s.priceHistory.length ≤ 30) :
    (step e s).1.priceHistory.length ≤ 30 := by
  cases e with
  | toggleMonitoring o =>
    simp only [step]
    split
    · exact fetchPrice_history_le o _ h
    · exact h
  | timerFire o =>
    simp only [step]
    cases s.effectTimer with
    | some id => exact fetchPrice_history_le o s h
    | none => exact h
  | alertCheck now netOk =>
    simp only [step, checkThreshold]
    split
    · split
      · exact h
      · exact h
    · exact h
  | setThresholdEv v => exact h
  | setConfigEv c => exact h
  | clickInsight r =>
    simp only [step]
    split
    · exact h
    · exact h

/-! ## Theorems -/

/-- C1: the in-memory history buffer is bounded.  Every reachable state
holds at most 30 points; a successful fetch appends the new point at the
end and keeps only the last 30; appending to a full 30-point buffer drops
exactly the oldest point. -/
theorem C1_history_sliding_window :
    (∀ s : AppState, Reachable s → s.priceHistory.length ≤ 30) ∧
    (∀ (d : GoldData) (s : AppState),
      (fetchPrice (.ok d) s).priceHistory =
        keepLast30 (s.priceHistory ++ [newPoint d])) ∧
    (∀ (d : GoldData) (s : AppState), s.priceHistory.length = 30 →
      (fetchPrice (.ok d) s).priceHistory =
        s.priceHistory.tail ++ [newPoint d]) := by
  refine ⟨?_, fetchPrice_priceHistory_ok, ?_⟩
  · intro s h
    induction h with
    | init store => simp [initState]
    | next e s hs ih => exact step_history_le e s ih
  · intro d s h
    rw [fetchPrice_priceHistory_ok]
    unfold keepLast30
    rw [List.length_append, h]
    norm_num
    cases hp : s.priceHistory with
    | nil => rw [hp] at h; simp at h
    | cons a t => simp [hp]

/-- The timers a monitoring-effect handle accounts for. -/
def timersOf (handle : Option ℕ) : List (ℕ × ℕ) :=
  match handle with
  | none => []
  | some id => [(id, 60000)]

/-- The timer bookkeeping invariant: the live timers are exactly the one
the current monitoring-effect instance holds (with the 60000 ms period),
and the effect holds one exactly while monitoring is on. -/
def TimerInv (s : AppState) : Prop :=
  s.timers = timersOf s.effectTimer ∧ s.effectTimer.isSome = s.isMonitoring

theorem timerInv_init (store : List (String × JVal)) :
    TimerInv (initState store) := ⟨rfl, rfl⟩

theorem fetchPrice_timers (o : Except Unit GoldData) (s : AppState) :
    (fetchPrice o s).timers = s.timers ∧
    (fetchPrice o s).effectTimer = s.effectTimer ∧
    (fetchPrice o s).nextTimerId = s.nextTimerId ∧
    (fetchPrice o s).isMonitoring = s.isMonitoring := by
  cases o with
  | error u => exact ⟨rfl, rfl, rfl, rfl⟩
  | ok d => exact ⟨rfl, rfl, rfl, rfl⟩

theorem timerInv_step (e : Event) (s : AppState) (h : TimerInv s) :
    TimerInv (step e s).1 := by
  obtain ⟨h1, h2⟩ := h
  cases e with
  | toggleMonitoring o =>
    simp only [step]
    split
    · rename_i hm
      have hmon : s.isMonitoring = false := by
        cases hb : s.isMonitoring
        · rfl
        · rw [hb] at hm; simp at hm
      have heff : s.effectTimer = none := by
        rw [hmon] at h2
        cases he : s.effectTimer
        · rfl
        · rw [he] at h2; simp at h2
      constructor
      · simp [fetchPrice_timers, heff, h1, clearEffectTimer, timersOf]
      · simp only [hm]
        have hfm := (fetchPrice_timers o { s with
          isMonitoring := true
          timers := clearEffectTimer s.timers s.effectTimer
          effectTimer := none }).2.2.2
        simp [hfm]
    · rename_i hm
      have hmon : s.isMonitoring = true := by
        cases hb : s.isMonitoring
        · rw [hb] at hm; simp at hm
        · rfl
      have heff : ∃ id, s.effectTimer = some id := by
        rw [hmon] at h2
        cases he : s.effectTimer
        · rw [he] at h2; simp at h2
        · exact ⟨_, rfl⟩
      obtain ⟨id, hid⟩ := heff
      constructor
      · simp [hid, h1, clearEffectTimer, timersOf]
      · simp [hmon]
  | timerFire o =>
    simp only [step]
    cases he : s.effectTimer with
    | some id =>
      obtain ⟨ht, hef, _, hmo⟩ := fetchPrice_timers o s
      exact ⟨by rw [ht, hef, h1], by rw [hef, hmo, h2]⟩
    | none => exact ⟨h1, h2⟩
  | alertCheck now netOk =>
    simp only [step, checkThreshold]
    split
    · split
      · exact ⟨h1, h2⟩
      · exact ⟨h1, h2⟩
    · exact ⟨h1, h2⟩
  | setThresholdEv v => exact ⟨h1, h2⟩
  | setConfigEv c => exact ⟨h1, h2⟩
  | clickInsight r =>
    simp only [step]
    split
    · exact ⟨h1, h2⟩
    · exact ⟨h1, h2⟩

theorem reachable_timerInv (s : AppState) (h : Reachable s) : TimerInv s := by
  induction h with
  | init store => exact timerInv_init store
  | next e s hs ih => exact timerInv_step e s ih

/-- C4: a single polling timer.  Every reachable state has at most one
live interval timer and any live timer has the 60000 ms period; turning
monitoring on issues an immediate fetch and leaves exactly one fresh
60000 ms interval; turning it off clears the timer and fetches nothing;
and a firing interval performs exactly the price fetch. -/
theorem C4_single_polling_timer :
    (∀ s : AppState, Reachable s →
      s.timers.length ≤ 1 ∧ ∀ t ∈ s.timers, t.2 = 60000) ∧
    (∀ (s : AppState) (o : Except Unit GoldData), Reachable s →
      s.isMonitoring = false →
      (step (.toggleMonitoring o) s).2.fetchCalled = true ∧
      (step (.toggleMonitoring o) s).1.timers = [(s.nextTimerId, 60000)]) ∧
    (∀ (s : AppState) (o : Except Unit GoldData), Reachable s →
      s.isMonitoring = true →
      (step (.toggleMonitoring o) s).1.timers = [] ∧
      (step (.toggleMonitoring o) s).2.fetchCalled = false) ∧
    (∀ (s : AppState) (o : Except Unit GoldData) (id : ℕ),
      s.effectTimer = some id →
      step (.timerFire o) s = (fetchPrice o s, fetchOutput)) := by
  refine ⟨?_, ?_, ?_, ?_⟩
  · intro s h
    obtain ⟨h1, _⟩ := reachable_timerInv s h
    rw [h1]
    cases s.effectTimer with
    | none => exact ⟨by simp [timersOf], by simp [timersOf]⟩
    | some id => exact ⟨by simp [timersOf], by simp [timersOf]⟩
  · intro s o h hmon
    obtain ⟨h1, h2⟩ := reachable_timerInv s h
    have heff : s.effectTimer = none := by
      rw [hmon] at h2
      cases he : s.effectTimer
      · rfl
      · rw [he] at h2; simp at h2
    constructor
    · simp [step, hmon, fetchOutput]
    · simp [step, hmon, fetchPrice_timers, heff, h1, clearEffectTimer, timersOf,
        (fetchPrice_timers o _).1, (fetchPrice_timers o _).2.2.1]
  · intro s o h hmon
    obtain ⟨h1, h2⟩ := reachable_timerInv s h
    have heff : ∃ id, s.effectTimer = some id := by
      rw [hmon] at h2
      cases he : s.effectTimer
      · rw [he] at h2; simp at h2
      · exact ⟨_, rfl⟩
    obtain ⟨id, hid⟩ := heff
    constructor
    · simp [step, hmon, hid, h1, clearEffectTimer, timersOf]
    · simp [step, hmon, quietOutput]
  · intro s o id hid
    simp [step, hid]

/-- A reachable state with monitoring on: the initial state after one
Start click (whose immediate fetch fails). -/
def monitoringState : AppState :=
  (step (.toggleMonitoring (.error ())) (initState [])).1

/-- Witness for C4: concrete reachable states with monitoring off and on,
with the timer created and cleared as stated. -/
theorem C4_witness :
    ((initState []).timers.length ≤ 1) ∧
    ((step (.toggleMonitoring (.error ())) (initState [])).2.fetchCalled = true ∧
      (step (.toggleMonitoring (.error ())) (initState [])).1.timers =
        [((initState []).nextTimerId, 60000)]) ∧
    ((step (.toggleMonitoring (.error ())) monitoringState).1.timers = [] ∧
      (step (.toggleMonitoring (.error ())) monitoringState).2.fetchCalled = false) ∧
    (step (.timerFire (.error ())) monitoringState =
      (fetchPrice (.error ()) monitoringState, fetchOutput)) :=
  ⟨(C4_single_polling_timer.1 (initState []) (Reachable.init [])).1,
   C4_single_polling_timer.2.1 (initState []) (.error ()) (Reachable.init []) rfl,
   C4_single_polling_timer.2.2.1 monitoringState (.error ())
     (Reachable.next _ _ (Reachable.init [])) rfl,
   C4_single_polling_timer.2.2.2 monitoringState (.error ()) 0 rfl⟩

/-- A gold sample used by concrete witnesses. -/
def sampleGold : GoldData := ⟨2950000, 1700000000000, "Global Market (XAU/IDR)"⟩

/-- A state whose history buffer is full (30 points). -/
def fullHistoryState : AppState :=
  { initState [] with priceHistory := List.replicate 30 ⟨"t", 0⟩ }

/-- Witness for C1: the initial state satisfies the bound, and fetching on
a concrete full buffer slides the window. -/
theorem C1_witness :
    (initState []).priceHistory.length ≤ 30 ∧
    (fetchPrice (.ok sampleGold) fullHistoryState).priceHistory =
      fullHistoryState.priceHistory.tail ++ [newPoint sampleGold] :=
  ⟨C1_history_sliding_window.1 (initState []) (Reachable.init []),
   C1_history_sliding_window.2.2 sampleGold fullHistoryState
     (by simp [fullHistoryState, initState])⟩


/-- C7: `getMarketInsight` is total over failures: whether the model call
throws or the JSON parse of the (defaulted, trimmed) response text throws,
the exception is caught and the fixed fallback insight — sentiment
`Neutral`, analysis `"Could not fetch AI analysis at this time."`,
recommendation `"Monitor global economic indicators."` — is returned. -/
theorem C7_insight_total_over_failures :
    (∀ (p : ℤ) (u : Unit) (parseJson : String → Except Unit MarketInsight),
      getMarketInsight p (.error u) parseJson =
        ⟨.Neutral, "Could not fetch AI analysis at this time.",
         "Monitor global economic indicators."⟩) ∧
    (∀ (p : ℤ) (text : Option String)
      (parseJson : String → Except Unit MarketInsight) (u : Unit),
      parseJson (respJsonStr text) = .error u →
      getMarketInsight p (.ok text) parseJson =
        ⟨.Neutral, "Could not fetch AI analysis at this time.",
         "Monitor global economic indicators."⟩) := by
  constructor
  · intro p u parseJson
    rfl
  · intro p text parseJson u h
    simp only [getMarketInsight, h]
    rfl

/-- Witness for C7: a concrete failing model call and a concrete failing
parse both land on the fallback insight. -/
theorem C7_witness :
    getMarketInsight 3000000 (.error ()) (fun _ => .ok fallbackInsight) =
      ⟨.Neutral, "Could not fetch AI analysis at this time.",
       "Monitor global economic indicators."⟩ ∧
    getMarketInsight 3000000 (.ok (some "not json"))
        (fun _ => .error ()) =
      ⟨.Neutral, "Could not fetch AI analysis at this time.",
       "Monitor global economic indicators."⟩ :=
  ⟨C7_insight_total_over_failures.1 3000000 () _,
   C7_insight_total_over_failures.2 3000000 (some "not json") _ () rfl⟩

/-- C8: a failed poll is atomic on the price state.  When
`fetchLiveGoldPrice` throws — in particular whenever the HTTP response is
not ok — the resulting state is the old one with only `loadingPrice`
forced back to `false`; `currentPrice`, `lastUpdated`, `dataSource` and
`priceHistory` are untouched, and the flag was set to `true` at the start
of the fetch. -/
theorem C8_failed_fetch_frame :
    (∀ (u : Unit) (s : AppState),
      fetchPrice (.error u) s = { s with loadingPrice := false } ∧
      (fetchPriceStart s).loadingPrice = true ∧
      (fetchPrice (.error u) s).currentPrice = s.currentPrice ∧
      (fetchPrice (.error u) s).lastUpdated = s.lastUpdated ∧
      (fetchPrice (.error u) s).dataSource = s.dataSource ∧
      (fetchPrice (.error u) s).priceHistory = s.priceHistory ∧
      (fetchPrice (.error u) s).loadingPrice = false) ∧
    (∀ (d : GoldData) (s : AppState),
      fetchPrice (fetchLiveGoldPrice false d) s =
        { s with loadingPrice := false }) := by
  constructor
  · intro u s
    refine ⟨rfl, rfl, rfl, rfl, rfl, rfl, rfl⟩
  · intro d s
    rfl

theorem attempted_only_alertCheck (e : Event) (s : AppState)
    (h : (step e s).2.alertAttempted = true) :
    ∃ now k, e = .alertCheck now k := by
  cases e with
  | toggleMonitoring o =>
    exfalso
    revert h
    simp only [step]
    split <;> simp [fetchOutput, quietOutput]
  | timerFire o =>
    exfalso
    revert h
    simp only [step]
    cases he : s.effectTimer <;> simp [fetchOutput, quietOutput]
  | alertCheck now k => exact ⟨now, k, rfl⟩
  | setThresholdEv v => exact absurd h (by simp [step, quietOutput])
  | setConfigEv c => exact absurd h (by simp [step, quietOutput])
  | clickInsight r =>
    exfalso
    revert h
    simp only [step]
    split <;> simp [quietOutput]

theorem alertCheck_attempted_char (now : ℤ) (k : Bool) (s : AppState)
    (h : (step (.alertCheck now k) s).2.alertAttempted = true) :
    (s.isMonitoring = true ∧ 0 < s.currentPrice ∧ s.threshold ≤ s.currentPrice) ∧
    600000 < now - s.lastAlertTime ∧
    step (.alertCheck now k) s =
      ({ s with
          logs := (mkAlertLog now s.threshold s.currentPrice
            (sendTelegramAlert s.tgConfig k) :: s.logs).take 50
          lastAlertTime := if sendTelegramAlert s.tgConfig k then now
            else s.lastAlertTime },
       ⟨false, true, sendTelegramAlert s.tgConfig k, false⟩) := by
  revert h
  simp only [step, checkThreshold]
  split
  · split
    · rename_i hcond hdeb
      exact fun _ => ⟨hcond, hdeb, rfl⟩
    · simp [quietOutput]
  · simp [quietOutput]

theorem alertCheck_success_char (now : ℤ) (k : Bool) (s : AppState)
    (h : (step (.alertCheck now k) s).2.alertSuccess = true) :
    (step (.alertCheck now k) s).1.lastAlertTime = now ∧
    600000 < now - s.lastAlertTime := by
  revert h
  simp only [step, checkThreshold]
  split
  · split
    · rename_i hcond hdeb
      intro h
      simp only at h
      refine ⟨?_, hdeb⟩
      simp [h]
    · simp [quietOutput]
  · simp [quietOutput]

theorem step_noSuccess_lastAlertTime (e : Event) (s : AppState)
    (h : (step e s).2.alertSuccess = false) :
    (step e s).1.lastAlertTime = s.lastAlertTime := by
  cases e with
  | toggleMonitoring o =>
    simp only [step]
    split
    · cases o <;> rfl
    · rfl
  | timerFire o =>
    simp only [step]
    cases he : s.effectTimer
    · rfl
    · cases o <;> rfl
  | alertCheck now k =>
    revert h
    simp only [step, checkThreshold]
    split
    · split
      · intro h
        simp only at h
        simp [h]
      · intro _; rfl
    · intro _; rfl
  | setThresholdEv v => rfl
  | setConfigEv c => rfl
  | clickInsight r =>
    simp only [step]
    split <;> rfl

theorem step_lastAlertTime_mono (e : Event) (s : AppState) :
    s.lastAlertTime ≤ (step e s).1.lastAlertTime := by
  cases e with
  | alertCheck now k =>
    simp only [step, checkThreshold]
    split
    · split
      · rename_i hcond hdeb
        cases hb : sendTelegramAlert s.tgConfig k
        · simp [hb]
        · simp [hb]
          omega
      · exact le_refl _
    · exact le_refl _
  | toggleMonitoring o =>
    simp only [step]
    split
    · cases o <;> exact le_refl _
    · exact le_refl _
  | timerFire o =>
    simp only [step]
    cases he : s.effectTimer
    · exact le_refl _
    · cases o <;> exact le_refl _
  | setThresholdEv v => exact le_refl _
  | setConfigEv c => exact le_refl _
  | clickInsight r =>
    simp only [step]
    split <;> exact le_refl _

theorem run_lastAlertTime_mono (es : List Event) (s : AppState) :
    s.lastAlertTime ≤ (run s es).lastAlertTime := by
  induction es generalizing s with
  | nil => exact le_refl _
  | cons e es ih =>
    exact le_trans (step_lastAlertTime_mono e s) (ih (step e s).1)

/-- C2: alerting is debounced.  Any two successful Telegram sends — the
second issued any number of events after the first — are more than
600000 ms apart; a send is attempted only when more than 600000 ms have
elapsed since the last recorded send; and an attempted send that fails
leaves the debounce timestamp untouched. -/
theorem C2_alert_debounced :
    (∀ (s : AppState) (t₁ t₂ : ℤ) (k₁ k₂ : Bool) (es : List Event),
      (step (.alertCheck t₁ k₁) s).2.alertSuccess = true →
      (step (.alertCheck t₂ k₂)
        (run (step (.alertCheck t₁ k₁) s).1 es)).2.alertSuccess = true →
      600000 < t₂ - t₁) ∧
    (∀ (now : ℤ) (k : Bool) (s : AppState),
      (step (.alertCheck now k) s).2.alertAttempted = true →
      600000 < now - s.lastAlertTime) ∧
    (∀ (e : Event) (s : AppState),
      (step e s).2.alertAttempted = true →
      (step e s).2.alertSuccess = false →
      (step e s).1.lastAlertTime = s.lastAlertTime) := by
  refine ⟨?_, ?_, ?_⟩
  · intro s t₁ t₂ k₁ k₂ es h₁ h₂
    have e₁ := alertCheck_success_char t₁ k₁ s h₁
    have hmono := run_lastAlertTime_mono es (step (.alertCheck t₁ k₁) s).1
    have e₂ := alertCheck_success_char t₂ k₂ _ h₂
    rw [e₁.1] at hmono
    omega
  · intro now k s h
    exact (alertCheck_attempted_char now k s h).2.1
  · intro e s h hf
    exact step_noSuccess_lastAlertTime e s hf

/-- A reachable-shaped state ready to alert: monitoring on, live price at
the threshold, valid Telegram config. -/
def readyState : AppState :=
  { initState [] with
      isMonitoring := true
      currentPrice := 3000000
      threshold := 2900000
      tgConfig := ⟨"token", "chat", true⟩ }

/-- Witness for C2: two concrete successful sends 700001 ms apart, a
concrete attempt 700000 ms after the epoch, and a concrete failed send
leaving the timestamp at 0. -/
theorem C2_witness :
    ((600000 : ℤ) < 1400001 - 700000) ∧
    ((600000 : ℤ) < 700000 - readyState.lastAlertTime) ∧
    (step (.alertCheck 700000 false) readyState).1.lastAlertTime =
      readyState.lastAlertTime :=
  ⟨C2_alert_debounced.1 readyState 700000 1400001 true true []
      (by decide) (by decide),
   C2_alert_debounced.2.1 700000 true readyState (by decide),
   C2_alert_debounced.2.2 (.alertCheck 700000 false) readyState
      (by decide) (by decide)⟩

/-- C3: alerts are threshold-based.  A Telegram send is attempted only
while monitoring with a strictly positive current price at or above the
threshold, and every attempt prepends a log entry recording the threshold
and current price whose status is `success` exactly when the send
succeeded (the log list being capped at 50). -/
theorem C3_threshold_alerts :
    (∀ (e : Event) (s : AppState),
      (step e s).2.alertAttempted = true →
      s.isMonitoring = true ∧ 0 < s.currentPrice ∧
        s.threshold ≤ s.currentPrice) ∧
    (∀ (now : ℤ) (k : Bool) (s : AppState),
      (step (.alertCheck now k) s).2.alertAttempted = true →
      (step (.alertCheck now k) s).2.alertSuccess =
        sendTelegramAlert s.tgConfig k ∧
      (step (.alertCheck now k) s).1.logs =
        (mkAlertLog now s.threshold s.currentPrice
          (sendTelegramAlert s.tgConfig k) :: s.logs).take 50 ∧
      ((mkAlertLog now s.threshold s.currentPrice
          (sendTelegramAlert s.tgConfig k)).status = .success ↔
        sendTelegramAlert s.tgConfig k = true)) := by
  constructor
  · intro e s h
    obtain ⟨now, k, rfl⟩ := attempted_only_alertCheck e s h
    exact (alertCheck_attempted_char now k s h).1
  · intro now k s h
    obtain ⟨_, _, hchar⟩ := alertCheck_attempted_char now k s h
    refine ⟨by rw [hchar], by rw [hchar], ?_⟩
    cases hb : sendTelegramAlert s.tgConfig k
    · simp [mkAlertLog]
    · simp [mkAlertLog]

/-- Witness for C3: the concrete attempt on `readyState` satisfies the
guard and produces the stated log entry. -/
theorem C3_witness :
    (readyState.isMonitoring = true ∧ 0 < readyState.currentPrice ∧
      readyState.threshold ≤ readyState.currentPrice) ∧
    (step (.alertCheck 700000 true) readyState).1.logs =
      (mkAlertLog 700000 readyState.threshold readyState.currentPrice
        (sendTelegramAlert readyState.tgConfig true) ::
          readyState.logs).take 50 :=
  ⟨C3_threshold_alerts.1 (.alertCheck 700000 true) readyState (by decide),
   (C3_threshold_alerts.2 700000 true readyState (by decide)).2.1⟩

/-- C5: settings persistence round-trips.  A config change writes the
config as JSON to `localStorage` under the key `gold_tg_config`, parsing
the stored JSON back yields exactly the saved config, and with nothing
stored the initializer yields `{ botToken: '', chatId: '', enabled: false }`. -/
theorem C5_config_roundtrip :
    (∀ (s : AppState) (c : TelegramConfig),
      ((step (.setConfigEv c) s).1.localStore.lookup tgConfigKey) =
        some (tgConfigToJson c) ∧
      (step (.setConfigEv c) s).1.tgConfig = c) ∧
    (∀ c : TelegramConfig,
      loadTgConfig (some (tgConfigToJson c)) = some c) ∧
    (loadTgConfig none = some initialTgConfig ∧
      initialTgConfig = ⟨"", "", false⟩) := by
  refine ⟨?_, ?_, rfl, rfl⟩
  · intro s c
    constructor
    · simp [step, setItem, List.lookup]
    · rfl
  · intro c
    rfl

/-- C6: the AI commentary is optional and guarded.  Only the explicit
insight-button event performs a Gemini call, and with a zero current price
the handler returns immediately: the state (in particular `insight` and
`loadingInsight`) is unchanged and no call is made. -/
theorem C6_insight_guarded :
    (∀ (e : Event) (s : AppState),
      (step e s).2.geminiCalled = true → ∃ r, e = .clickInsight r) ∧
    (∀ (r : MarketInsight) (s : AppState), s.currentPrice = 0 →
      (step (.clickInsight r) s).1 = s ∧
      (step (.clickInsight r) s).2.geminiCalled = false) := by
  constructor
  · intro e s h
    cases e with
    | toggleMonitoring outcome =>
      exfalso
      revert h
      simp [step, quietOutput, fetchOutput]
      split <;> simp [fetchOutput, quietOutput]
    | timerFire outcome =>
      exfalso
      revert h
      simp [step, quietOutput, fetchOutput]
      split <;> simp [fetchOutput, quietOutput]
    | alertCheck now netOk =>
      exfalso
      revert h
      simp [step, checkThreshold, quietOutput]
      split <;> [skip; simp [quietOutput]]
      split <;> simp [quietOutput]
    | setThresholdEv v => exact absurd h (by simp [step, quietOutput])
    | setConfigEv c => exact absurd h (by simp [step, quietOutput])
    | clickInsight r => exact ⟨r, rfl⟩
  · intro r s h
    constructor
    · simp [step, h]
    · simp [step, h, quietOutput]

/-- Witness for C6: at the initial state (price 0) the insight click is a
no-op without a Gemini call, and for a state with a live price the
Gemini-calling event is indeed the insight click. -/
theorem C6_witness :
    (step (.clickInsight fallbackInsight) (initState [])).1 = initState [] ∧
    (step (.clickInsight fallbackInsight) (initState [])).2.geminiCalled = false ∧
    ∃ r, (Event.clickInsight fallbackInsight) = Event.clickInsight r :=
  ⟨(C6_insight_guarded.2 fallbackInsight (initState []) rfl).1,
   (C6_insight_guarded.2 fallbackInsight (initState []) rfl).2,
   C6_insight_guarded.1 (.clickInsight fallbackInsight)
     { initState [] with currentPrice := 1 } rfl⟩

end GoldWatch
